import Mathlib

/-!
A shallow embedding of the `dbus_idle` package (files
`dbus_idle/__init__.py` and `dbus_idle/wayland_monitors.py`) together with
theorems about its backend-selection logic, its idle-decision facade and the
two Wayland event-driven idle trackers.

Modelling conventions:
* Python floats are modelled as rationals (`Rat`); every division appearing
  in the verified properties is an exact division of a millisecond count by
  1000, so no floating-point rounding is lost.
* Wall-clock reads (`time.time()`, `time.time_ns() // 1_000_000`) become
  explicit parameters (`now : Rat` in seconds, `now_ms : Int` in
  milliseconds).
* Python exceptions become `Except String` values; a raised exception is
  `.error msg` and propagation is explicit.
* The inbound Wayland event queue becomes an explicit list of events, each
  paired with the wall-clock instant at which its handler runs;
  `display.dispatch_pending()` is a fold of the handlers over that list.
-/

namespace DbusIdle

/-- Events delivered by the `ext_idle_notify_v1` protocol to
`ExtIdleMonitor` (`wayland_monitors.py`, dispatcher entries `"idle"` and
`"resumed"`): `idle` carries the compositor timestamp in milliseconds,
`resumed` carries nothing. -/
inductive WEvent where
  | idle (timestamp : Int)
  | resumed
  deriving Repr, DecidableEq

/-- The mutable state of `ExtIdleMonitor` (`wayland_monitors.py` lines
33-47): `idle_threshold` (seconds, from `WaylandMonitorBase`),
`idle_since : Optional[int]` (protocol timestamp in milliseconds) and
`last_activity` (seconds, a `time.time()` value). -/
structure ExtIdleState where
  idle_threshold : Int
  idle_since : Option Int
  last_activity : Rat
  deriving Repr, DecidableEq

namespace ExtIdleMonitor

/-- Construction (`wayland_monitors.py` lines 34-47): `idle_since = None`,
`last_activity = time.time()` where `now` is the construction instant. -/
def init (idle_threshold : Int) (now : Rat) : ExtIdleState :=
  { idle_threshold := idle_threshold, idle_since := none, last_activity := now }

/-- `_handle_idle` and `_handle_resumed` (`wayland_monitors.py` lines
62-67) as a single step function; `now` is the value `time.time()` returns
at the instant the handler runs. -/
def handle_event (now : Rat) (s : ExtIdleState) : WEvent → ExtIdleState
  | .idle t => { s with idle_since := some t }
  | .resumed => { s with idle_since := none, last_activity := now }

/-- `self.display.dispatch_pending()`: processes the currently queued events
in arrival order, invoking the registered handler for each. -/
def dispatch_pending (s : ExtIdleState) (evts : List (Rat × WEvent)) : ExtIdleState :=
  evts.foldl (fun st pe => handle_event pe.1 st pe.2) s

/-- `get_idle_time` (`wayland_monitors.py` lines 69-73): drains the pending
events, then returns `(time.time_ns() // 1_000_000 - idle_since) / 1000.0`
when `idle_since` is set and `time.time() - last_activity` otherwise.  The
result is paired with the post-drain state; `now_ms` is
`time.time_ns() // 1_000_000` and `now` is `time.time()` at query time. -/
def get_idle_time (s : ExtIdleState) (pending : List (Rat × WEvent))
    (now_ms : Int) (now : Rat) : Rat × ExtIdleState :=
  let s2 := dispatch_pending s pending
  match s2.idle_since with
  | some t => (((now_ms - t : Int) : Rat) / 1000, s2)
  | none => (now - s2.last_activity, s2)

end ExtIdleMonitor

/-- The mutable state of `WaylandKdeIdleMonitor` (`__init__.py` lines
46-92): `idle_threshold` (seconds), the boolean `idle_active` and
`last_activity` (seconds, a `time.time()` value). -/
structure KdeIdleState where
  idle_threshold : Int
  idle_active : Bool
  last_activity : Rat
  deriving Repr, DecidableEq

namespace WaylandKdeIdleMonitor

/-- Construction (`__init__.py` lines 53-64): `idle_active = False`,
`last_activity = time.time()` where `now` is the construction instant. -/
def init (idle_threshold : Int) (now : Rat) : KdeIdleState :=
  { idle_threshold := idle_threshold, idle_active := false, last_activity := now }

/-- `_idle_timeout_handler` (`__init__.py` lines 86-92): event names other
than `"idle"` and `"resumed"` fall through both branches and leave the
state unchanged.  The `org_kde_kwin_idle` events carry no timestamp
payload, only the name. -/
def idle_timeout_handler (now : Rat) (s : KdeIdleState) (event_name : String) :
    KdeIdleState :=
  if event_name = "idle" then { s with idle_active := true }
  else if event_name = "resumed" then
    { s with idle_active := false, last_activity := now }
  else s

/-- `self.display.dispatch_pending()` for the KDE tracker: processes the
queued events (names paired with their handler-invocation instants) in
arrival order. -/
def dispatch_pending (s : KdeIdleState) (evts : List (Rat × String)) : KdeIdleState :=
  evts.foldl (fun st pe => idle_timeout_handler pe.1 st pe.2) s

/-- `get_dbus_idle` (`__init__.py` lines 94-103): drains the pending
events, then returns `self.idle_threshold` when `idle_active` holds and
`time.time() - self.last_activity` otherwise, paired with the post-drain
state. -/
def get_dbus_idle (s : KdeIdleState) (pending : List (Rat × String)) (now : Rat) :
    Rat × KdeIdleState :=
  let s2 := dispatch_pending s pending
  if s2.idle_active then ((s2.idle_threshold : Rat), s2)
  else (now - s2.last_activity, s2)

end WaylandKdeIdleMonitor

/-- `true` exactly on `.error` values; models "this construction or query
attempt raised an exception". -/
def isErr {ε α : Type} : Except ε α → Bool
  | .error _ => true
  | .ok _ => false

namespace IdleMonitor

/-- `IdleMonitor.get_monitor` (`__init__.py` lines 25-32): tries each
registered subclass constructor in registration order.  A constructor
either raises (modelled `.error msg`) — which is logged
(`"Could not load ..."`) and skipped — or returns an instance, which is
returned immediately.  When every constructor has failed it raises
`RuntimeError("Could not find a working monitor.")`.  The result pairs the
emitted warning logs with the outcome. -/
def get_monitor {α : Type} : List (Except String α) → List String × Except String α
  | [] => ([], Except.error "Could not find a working monitor.")
  | Except.ok m :: _ => ([], Except.ok m)
  | Except.error e :: rest =>
    let r := get_monitor rest
    (("Could not load " ++ e) :: r.1, r.2)

/-- `IdleMonitor.get_dbus_idle` (`__init__.py` lines 33-41), the base
facade: tries `monitor_class().get_dbus_idle()` for each subclass in
order, returns the first value obtained without an exception, and returns
`None` when every attempt raised. -/
def get_dbus_idle : List (Except String Rat) → Option Rat
  | [] => none
  | Except.ok v :: _ => some v
  | Except.error _ :: rest => get_dbus_idle rest

/-- Python 3 `x > y` where `x` is a float or `None` and `y` a number:
comparing `None` with a number raises `TypeError`. -/
def pyGt (x : Option Rat) (y : Rat) : Except String Bool :=
  match x with
  | some v => Except.ok (decide (y < v))
  | none => Except.error "TypeError"

/-- `IdleMonitor.is_idle` (`__init__.py` lines 42-43):
`self.get_dbus_idle() > self.idle_threshold`, where the queried value may
be `None` on the base facade. -/
def is_idle (queried : Option Rat) (idle_threshold : Int) : Except String Bool :=
  pyGt queried (idle_threshold : Rat)

end IdleMonitor

namespace DBusIdleMonitor

/-- `DBusIdleMonitor.get_dbus_idle` (`__init__.py` lines 119-120):
`int(self.connection.GetIdletime()) / 1000.0`, the remote value being an
integer number of milliseconds. -/
def get_dbus_idle (getIdletime : Int) : Rat :=
  (getIdletime : Rat) / 1000

end DBusIdleMonitor

namespace XprintidleIdleMonitor

/-- Python `str.strip()`: removes leading and trailing whitespace. -/
def pyStrip (s : String) : String :=
  ⟨((s.data.dropWhile Char.isWhitespace).reverse.dropWhile Char.isWhitespace).reverse⟩

/-- `some n` when the character list is a nonempty string of decimal
digits denoting `n`, `none` otherwise. -/
def digitsToNat (cs : List Char) : Option Nat :=
  if cs.isEmpty then none
  else cs.foldl (fun acc c => acc.bind fun n =>
    if c.isDigit then some (10 * n + (c.toNat - 48)) else none) (some 0)

/-- Python `int(s)` on the stripped helper output: an optional `+`/`-`
sign followed by decimal digits parses to the integer (underscore digit
grouping is not modelled); anything else raises `ValueError`. -/
def pyInt (s : String) : Except String Int :=
  match s.data with
  | '-' :: rest =>
    match digitsToNat rest with
    | some n => Except.ok (-(n : Int))
    | none => Except.error "ValueError"
  | '+' :: rest =>
    match digitsToNat rest with
    | some n => Except.ok (n : Int)
    | none => Except.error "ValueError"
  | cs =>
    match digitsToNat cs with
    | some n => Except.ok (n : Int)
    | none => Except.error "ValueError"

/-- The result of a successful `subprocess.run`: its exit code and
captured standard output. -/
structure CompletedProcess where
  returncode : Int
  stdout : String
  deriving Repr, DecidableEq

/-- `XprintidleIdleMonitor.get_dbus_idle` (`__init__.py` lines 129-131):
`subprocess.run('xprintidle', ...)` either raises (spawn failure, modelled
by `.error`) or yields a completed process; the method then evaluates
`int(stdout.strip()) / 1000.0`.  `subprocess.run` is called without
`check=True`, so a non-zero exit code does not raise by itself; the
captured output is parsed regardless, and a parse failure raises
`ValueError`.  No exception is caught and nothing is logged here. -/
def get_dbus_idle (spawn : Except String CompletedProcess) : Except String Rat :=
  match spawn with
  | Except.error e => Except.error e
  | Except.ok p =>
    match pyInt (pyStrip p.stdout) with
    | Except.error e => Except.error e
    | Except.ok n => Except.ok ((n : Rat) / 1000)

end XprintidleIdleMonitor

/-! ### Helper lemmas -/

lemma ExtIdleMonitor.dispatch_pending_append (s : ExtIdleState)
    (l1 l2 : List (Rat × WEvent)) :
    ExtIdleMonitor.dispatch_pending s (l1 ++ l2)
      = ExtIdleMonitor.dispatch_pending (ExtIdleMonitor.dispatch_pending s l1) l2 :=
  List.foldl_append _ _ _ _

lemma ExtIdleMonitor.foldl_dispatch_flatten (parts : List (List (Rat × WEvent))) :
    ∀ s : ExtIdleState,
      parts.foldl ExtIdleMonitor.dispatch_pending s
        = ExtIdleMonitor.dispatch_pending s parts.flatten := by
  induction parts with
  | nil => intro s; rfl
  | cons l rest ih =>
    intro s
    simp only [List.foldl_cons, List.flatten_cons]
    rw [ih, ExtIdleMonitor.dispatch_pending_append]

lemma WaylandKdeIdleMonitor.kde_dispatch_append (k : KdeIdleState)
    (l1 l2 : List (Rat × String)) :
    WaylandKdeIdleMonitor.dispatch_pending k (l1 ++ l2)
      = WaylandKdeIdleMonitor.dispatch_pending (WaylandKdeIdleMonitor.dispatch_pending k l1) l2 :=
  List.foldl_append _ _ _ _

lemma WaylandKdeIdleMonitor.kde_foldl_dispatch_flatten (parts : List (List (Rat × String))) :
    ∀ k : KdeIdleState,
      parts.foldl WaylandKdeIdleMonitor.dispatch_pending k
        = WaylandKdeIdleMonitor.dispatch_pending k parts.flatten := by
  induction parts with
  | nil => intro k; rfl
  | cons l rest ih =>
    intro k
    simp only [List.foldl_cons, List.flatten_cons]
    rw [ih, WaylandKdeIdleMonitor.kde_dispatch_append]

lemma WaylandKdeIdleMonitor.handler_threshold (now : Rat) (k : KdeIdleState)
    (event_name : String) :
    (WaylandKdeIdleMonitor.idle_timeout_handler now k event_name).idle_threshold
      = k.idle_threshold := by
  simp only [WaylandKdeIdleMonitor.idle_timeout_handler]
  split_ifs <;> rfl

lemma WaylandKdeIdleMonitor.dispatch_threshold (kp : List (Rat × String)) :
    ∀ k : KdeIdleState,
      (WaylandKdeIdleMonitor.dispatch_pending k kp).idle_threshold = k.idle_threshold := by
  induction kp with
  | nil => intro k; rfl
  | cons e rest ih =>
    intro k
    simp only [WaylandKdeIdleMonitor.dispatch_pending, List.foldl_cons] at ih ⊢
    rw [ih, WaylandKdeIdleMonitor.handler_threshold]

lemma ExtIdleMonitor.dispatch_idle_since (evts : List (Rat × WEvent)) :
    ∀ s : ExtIdleState,
      (ExtIdleMonitor.dispatch_pending s evts).idle_since =
        (match evts.getLast? with
         | some (_, WEvent.idle t) => some t
         | some (_, WEvent.resumed) => none
         | none => s.idle_since) := by
  induction evts with
  | nil => intro s; rfl
  | cons e rest ih =>
    intro s
    obtain ⟨m, ev⟩ := e
    cases rest with
    | nil => cases ev <;> rfl
    | cons f rest2 =>
      have h := ih (ExtIdleMonitor.handle_event m s ev)
      cases hl : (f :: rest2).getLast? with
      | none => exact absurd (List.getLast?_eq_none_iff.mp hl) (by simp)
      | some e2 =>
        rw [hl] at h
        obtain ⟨m2, ev2⟩ := e2
        have hd : ExtIdleMonitor.dispatch_pending s ((m, ev) :: f :: rest2)
            = ExtIdleMonitor.dispatch_pending (ExtIdleMonitor.handle_event m s ev)
              (f :: rest2) := rfl
        rw [hd, List.getLast?_cons_cons, hl]
        cases ev2 <;> simpa using h

lemma IdleMonitor.get_dbus_idle_all_err :
    ∀ l : List (Except String Rat), (∀ x ∈ l, isErr x = true) →
      IdleMonitor.get_dbus_idle l = none
  | [], _ => rfl
  | Except.ok v :: rest, h =>
    absurd (h (Except.ok v) (List.mem_cons_self _ _)) (by simp [isErr])
  | Except.error _ :: rest, h =>
    get_dbus_idle_all_err rest (fun y hy => h y (by simp [hy]))

lemma IdleMonitor.get_monitor_skips {α : Type} (m : α) :
    ∀ (pre suf : List (Except String α)), (∀ x ∈ pre, isErr x = true) →
      (IdleMonitor.get_monitor (pre ++ Except.ok m :: suf)).2 = Except.ok m ∧
      (IdleMonitor.get_monitor (pre ++ Except.ok m :: suf)).1.length = pre.length
  | [], _, _ => ⟨rfl, rfl⟩
  | Except.ok v :: rest, _, h =>
    absurd (h (Except.ok v) (List.mem_cons_self _ _)) (by simp [isErr])
  | Except.error e :: rest, suf, h => by
    have ih := get_monitor_skips m rest suf (fun y hy => h y (by simp [hy]))
    refine ⟨?_, ?_⟩
    · simpa [IdleMonitor.get_monitor] using ih.1
    · simpa [IdleMonitor.get_monitor] using ih.2

lemma IdleMonitor.get_monitor_all_err {α : Type} :
    ∀ l : List (Except String α), (∀ x ∈ l, isErr x = true) →
      (IdleMonitor.get_monitor l).2 = Except.error "Could not find a working monitor." ∧
      (IdleMonitor.get_monitor l).1.length = l.length
  | [], _ => ⟨rfl, rfl⟩
  | Except.ok v :: rest, h =>
    absurd (h (Except.ok v) (List.mem_cons_self _ _)) (by simp [isErr])
  | Except.error e :: rest, h => by
    have ih := get_monitor_all_err rest (fun y hy => h y (by simp [hy]))
    refine ⟨?_, ?_⟩
    · simpa [IdleMonitor.get_monitor] using ih.1
    · simpa [IdleMonitor.get_monitor] using ih.2

/-! ### Claim theorems -/

/-- C3: `get_monitor` tries the registered backend descriptors in
registration order; every failed construction is logged and skipped
without aborting selection; the first successful construction is returned;
when every construction fails it returns the `RuntimeError` and no
instance. -/
theorem C3_selector_order_and_fallback :
    (∀ (α : Type) (pre : List (Except String α)) (m : α)
        (suf : List (Except String α)),
      (∀ x ∈ pre, isErr x = true) →
      (IdleMonitor.get_monitor (pre ++ Except.ok m :: suf)).2 = Except.ok m ∧
      (IdleMonitor.get_monitor (pre ++ Except.ok m :: suf)).1.length = pre.length) ∧
    (∀ (α : Type) (l : List (Except String α)),
      (∀ x ∈ l, isErr x = true) →
      (IdleMonitor.get_monitor l).2
          = Except.error "Could not find a working monitor." ∧
      (IdleMonitor.get_monitor l).1.length = l.length) :=
  ⟨fun _ pre m suf h => IdleMonitor.get_monitor_skips m pre suf h,
   fun _ l h => IdleMonitor.get_monitor_all_err l h⟩

/-- Witness for C3: one failing descriptor followed by a succeeding one
yields the succeeding instance after one warning log, and a list of only
failing descriptors yields the `RuntimeError`. -/
theorem C3_selector_order_and_fallback_witness :
    (IdleMonitor.get_monitor [Except.error "no display", Except.ok (7 : Nat)]).2
        = Except.ok 7 ∧
    (IdleMonitor.get_monitor [Except.error "no display", Except.ok (7 : Nat)]).1.length = 1 ∧
    (IdleMonitor.get_monitor
        ([Except.error "a", Except.error "b"] : List (Except String Nat))).2
        = Except.error "Could not find a working monitor." := by
  have h1 := C3_selector_order_and_fallback.1 Nat [Except.error "no display"] 7 []
    (by decide)
  have h2 := C3_selector_order_and_fallback.2 Nat [Except.error "a", Except.error "b"]
    (by decide)
  exact ⟨h1.1, h1.2, h2.1⟩

/-- C4: for every threshold `t ≥ 0` and queried duration `d`, `is_idle`
answers true exactly when `d > t`; at `d = t` it answers false (strict
greater-than at the boundary). -/
theorem C4_is_idle_strict_boundary (t : Int) (d : Rat) (h : 0 ≤ t) :
    (IdleMonitor.is_idle (some d) t = Except.ok true ↔ (t : Rat) < d) ∧
    IdleMonitor.is_idle (some (t : Rat)) t = Except.ok false := by
  constructor
  · simp [IdleMonitor.is_idle, IdleMonitor.pyGt]
  · simp [IdleMonitor.is_idle, IdleMonitor.pyGt]

/-- Witness for C4 at `t = 120`, `d = 125`. -/
theorem C4_is_idle_strict_boundary_witness :
    (IdleMonitor.is_idle (some 125) 120 = Except.ok true ↔ ((120 : Int) : Rat) < 125) ∧
    IdleMonitor.is_idle (some ((120 : Int) : Rat)) 120 = Except.ok false :=
  C4_is_idle_strict_boundary 120 125 (by decide)

/-- C8: the bus-service backend divides the millisecond `GetIdletime()`
value by 1000 exactly: 125000 ms gives 125.0 seconds, which is idle against
threshold 120, and 60000 ms gives 60.0 seconds, which is not idle. -/
theorem C8_dbus_conversion :
    DBusIdleMonitor.get_dbus_idle 125000 = 125 ∧
    IdleMonitor.is_idle (some (DBusIdleMonitor.get_dbus_idle 125000)) 120
        = Except.ok true ∧
    DBusIdleMonitor.get_dbus_idle 60000 = 60 ∧
    IdleMonitor.is_idle (some (DBusIdleMonitor.get_dbus_idle 60000)) 120
        = Except.ok false := by
  have h1 : DBusIdleMonitor.get_dbus_idle 125000 = 125 := by
    norm_num [DBusIdleMonitor.get_dbus_idle]
  have h2 : DBusIdleMonitor.get_dbus_idle 60000 = 60 := by
    norm_num [DBusIdleMonitor.get_dbus_idle]
  refine ⟨h1, ?_, h2, ?_⟩
  · rw [h1]
    simp [IdleMonitor.is_idle, IdleMonitor.pyGt]
    norm_num
  · rw [h2]
    simp [IdleMonitor.is_idle, IdleMonitor.pyGt]
    norm_num

/-- C10: when every backend query attempt raises, the base facade's
`get_dbus_idle` returns `None` (not 0.0 and not an exception), and a
subsequent `is_idle` call evaluates `None > threshold`, which raises
`TypeError` instead of returning a boolean. -/
theorem C10_facade_none_typeerror (attempts : List (Except String Rat)) (t : Int)
    (h : ∀ x ∈ attempts, isErr x = true) :
    IdleMonitor.get_dbus_idle attempts = none ∧
    IdleMonitor.is_idle (IdleMonitor.get_dbus_idle attempts) t
        = Except.error "TypeError" := by
  have hnone := IdleMonitor.get_dbus_idle_all_err attempts h
  exact ⟨hnone, by rw [hnone]; rfl⟩

/-- Witness for C10 with one failing backend attempt and threshold 120. -/
theorem C10_facade_none_typeerror_witness :
    IdleMonitor.get_dbus_idle [Except.error "boom"] = none ∧
    IdleMonitor.is_idle (IdleMonitor.get_dbus_idle [Except.error "boom"]) 120
        = Except.error "TypeError" :=
  C10_facade_none_typeerror [Except.error "boom"] 120 (by decide)

/-- C1 (counterexample): the claim's Idle-state formula
`(now_ms - idleSince_ms) / 1000` fails for the KDE Wayland tracker.  A KDE
tracker built with threshold 120 at time 0 that processed an `idle` event
whose compositor timestamp corresponds to 100000 ms reports exactly 120 at
query time 500 (i.e. `now_ms = 500000`), while the claimed formula gives
`(500000 - 100000) / 1000 = 400`. -/
theorem C1_kde_counterexample :
    (WaylandKdeIdleMonitor.get_dbus_idle
        (WaylandKdeIdleMonitor.idle_timeout_handler 100
          (WaylandKdeIdleMonitor.init 120 0) "idle") [] 500).1 = 120 ∧
    (120 : Rat) ≠ ((500000 - 100000 : Int) : Rat) / 1000 := by
  refine ⟨rfl, ?_⟩
  norm_num

/-- C1 (amended): after draining pending events, the ext-idle-notify
tracker's `get_idle_time` returns `(now_ms - idle_since) / 1000` when
`idle_since` is set and `now - last_activity` otherwise; the KDE Wayland
tracker's `get_dbus_idle` instead returns the constant `idle_threshold`
when `idle_active` holds and `now - last_activity` otherwise. -/
theorem C1_wayland_query_values (s : ExtIdleState) (pending : List (Rat × WEvent))
    (now_ms : Int) (now : Rat) (k : KdeIdleState) (kp : List (Rat × String)) :
    (∀ t : Int, (ExtIdleMonitor.dispatch_pending s pending).idle_since = some t →
      (ExtIdleMonitor.get_idle_time s pending now_ms now).1
          = ((now_ms - t : Int) : Rat) / 1000) ∧
    ((ExtIdleMonitor.dispatch_pending s pending).idle_since = none →
      (ExtIdleMonitor.get_idle_time s pending now_ms now).1
          = now - (ExtIdleMonitor.dispatch_pending s pending).last_activity) ∧
    ((WaylandKdeIdleMonitor.dispatch_pending k kp).idle_active = true →
      (WaylandKdeIdleMonitor.get_dbus_idle k kp now).1
          = ((WaylandKdeIdleMonitor.dispatch_pending k kp).idle_threshold : Rat)) ∧
    ((WaylandKdeIdleMonitor.dispatch_pending k kp).idle_active = false →
      (WaylandKdeIdleMonitor.get_dbus_idle k kp now).1
          = now - (WaylandKdeIdleMonitor.dispatch_pending k kp).last_activity) := by
  refine ⟨?_, ?_, ?_, ?_⟩
  · intro t ht
    simp [ExtIdleMonitor.get_idle_time, ht]
  · intro ht
    simp [ExtIdleMonitor.get_idle_time, ht]
  · intro hk
    simp [WaylandKdeIdleMonitor.get_dbus_idle, hk]
  · intro hk
    simp [WaylandKdeIdleMonitor.get_dbus_idle, hk]

/-- Witness for C1 (amended): an ext tracker built at time 0 that received
`idle` with timestamp 100000 ms reports the claimed formula's value at
`now_ms = 500000`. -/
theorem C1_wayland_query_values_witness :
    (ExtIdleMonitor.get_idle_time (ExtIdleMonitor.init 120 0)
        [(1, WEvent.idle 100000)] 500000 500).1
      = ((500000 - 100000 : Int) : Rat) / 1000 :=
  (C1_wayland_query_values (ExtIdleMonitor.init 120 0) [(1, WEvent.idle 100000)]
    500000 500 (WaylandKdeIdleMonitor.init 120 0) []).1 100000 rfl

/-- C2: processing `[idle(T1), resumed(), idle(T2)]` in arrival order,
split across any number of interleaved drain calls, leaves the ext tracker
in the Idle state with `idle_since = T2` and the KDE tracker with
`idle_active = true`; a drain that delivers no events changes nothing. -/
theorem C2_event_order_wins (t1 t2 : Int) (m1 m2 m3 : Rat) (s : ExtIdleState)
    (k : KdeIdleState) (drains : List (List (Rat × WEvent)))
    (kdrains : List (List (Rat × String)))
    (h : drains.flatten = [(m1, WEvent.idle t1), (m2, WEvent.resumed), (m3, WEvent.idle t2)])
    (hk : kdrains.flatten = [(m1, "idle"), (m2, "resumed"), (m3, "idle")]) :
    (drains.foldl ExtIdleMonitor.dispatch_pending s).idle_since = some t2 ∧
    (kdrains.foldl WaylandKdeIdleMonitor.dispatch_pending k).idle_active = true ∧
    ExtIdleMonitor.dispatch_pending s [] = s ∧
    WaylandKdeIdleMonitor.dispatch_pending k [] = k := by
  refine ⟨?_, ?_, rfl, rfl⟩
  · rw [ExtIdleMonitor.foldl_dispatch_flatten, h]
    rfl
  · rw [WaylandKdeIdleMonitor.kde_foldl_dispatch_flatten, hk]
    rfl

/-- Witness for C2: three drains — one event, then none, then two — end
with `idle_since = 7` on the ext tracker and `idle_active = true` on the
KDE tracker. -/
theorem C2_event_order_wins_witness :
    ([[((0 : Rat), WEvent.idle 5)], [],
        [((1 : Rat), WEvent.resumed), ((2 : Rat), WEvent.idle 7)]].foldl
      ExtIdleMonitor.dispatch_pending (ExtIdleMonitor.init 120 0)).idle_since = some 7 ∧
    ([[((0 : Rat), "idle")], [],
        [((1 : Rat), "resumed"), ((2 : Rat), "idle")]].foldl
      WaylandKdeIdleMonitor.dispatch_pending
      (WaylandKdeIdleMonitor.init 120 0)).idle_active = true := by
  have h := C2_event_order_wins 5 7 0 1 2 (ExtIdleMonitor.init 120 0)
    (WaylandKdeIdleMonitor.init 120 0)
    [[(0, WEvent.idle 5)], [], [(1, WEvent.resumed), (2, WEvent.idle 7)]]
    [[(0, "idle")], [], [(1, "resumed"), (2, "idle")]] rfl rfl
  exact ⟨h.1, h.2.1⟩

/-- C5 (counterexample): on a spawn failure the helper-process backend's
`get_dbus_idle` propagates the exception; it does not return `0.0`. -/
theorem C5_helper_spawn_counterexample :
    XprintidleIdleMonitor.get_dbus_idle (Except.error "FileNotFoundError")
        = Except.error "FileNotFoundError" ∧
    XprintidleIdleMonitor.get_dbus_idle (Except.error "FileNotFoundError")
        ≠ Except.ok (0 : Rat) :=
  ⟨rfl, fun hcontra => Except.noConfusion hcontra⟩

/-- C5 (amended): a spawn failure or malformed helper output makes
`get_dbus_idle` raise (propagate the error) rather than return `0.0`, and
no log is emitted at this level — the exception is only caught and logged
by the base facade's backend loop. -/
theorem C5_helper_error_propagates (e : String)
    (p : XprintidleIdleMonitor.CompletedProcess)
    (hp : XprintidleIdleMonitor.pyInt (XprintidleIdleMonitor.pyStrip p.stdout)
        = Except.error "ValueError") :
    XprintidleIdleMonitor.get_dbus_idle (Except.error e) = Except.error e ∧
    XprintidleIdleMonitor.get_dbus_idle (Except.ok p) = Except.error "ValueError" := by
  refine ⟨rfl, ?_⟩
  simp [XprintidleIdleMonitor.get_dbus_idle, hp]

/-- Witness for C5 (amended): spawn failure `FileNotFoundError` and the
malformed captured output `"garbage\n"` both produce errors. -/
theorem C5_helper_error_propagates_witness :
    XprintidleIdleMonitor.get_dbus_idle (Except.error "FileNotFoundError")
        = Except.error "FileNotFoundError" ∧
    XprintidleIdleMonitor.get_dbus_idle (Except.ok ⟨1, "garbage\n"⟩)
        = Except.error "ValueError" :=
  C5_helper_error_propagates "FileNotFoundError" ⟨1, "garbage\n"⟩ rfl

/-- C6: for every state of the ext tracker reachable from construction by
processing events, `idle_since` is set exactly when the most recently
processed event was `idle` (so no `resumed` arrived after it); the
invariant holds at construction, and a query's post-drain state is exactly
the drained state, so queries preserve it. -/
theorem C6_idle_since_invariant (threshold : Int) (t0 : Rat)
    (evts pending : List (Rat × WEvent)) (s : ExtIdleState)
    (now_ms : Int) (now : Rat) :
    (ExtIdleMonitor.init threshold t0).idle_since = none ∧
    ((ExtIdleMonitor.dispatch_pending (ExtIdleMonitor.init threshold t0)
        evts).idle_since.isSome = true
      ↔ ∃ m t, evts.getLast? = some (m, WEvent.idle t)) ∧
    (ExtIdleMonitor.get_idle_time s pending now_ms now).2
        = ExtIdleMonitor.dispatch_pending s pending := by
  refine ⟨rfl, ?_, ?_⟩
  · rw [ExtIdleMonitor.dispatch_idle_since]
    cases hl : evts.getLast? with
    | none => simp [ExtIdleMonitor.init]
    | some e2 =>
      obtain ⟨m2, ev2⟩ := e2
      cases ev2 <;> simp
  · unfold ExtIdleMonitor.get_idle_time
    cases hs : (ExtIdleMonitor.dispatch_pending s pending).idle_since <;> simp [hs]

/-- C7: a `resumed` event processed while the ext tracker is Active
(`idle_since = none`) changes nothing but `last_activity`, which becomes
the resume time; `idle_since` stays unset and the threshold is unchanged. -/
theorem C7_resumed_refreshes_only_last_activity (s : ExtIdleState) (now : Rat)
    (h : s.idle_since = none) :
    ExtIdleMonitor.handle_event now s WEvent.resumed
        = { s with last_activity := now } ∧
    (ExtIdleMonitor.handle_event now s WEvent.resumed).idle_since = none ∧
    (ExtIdleMonitor.handle_event now s WEvent.resumed).idle_threshold
        = s.idle_threshold := by
  refine ⟨?_, rfl, rfl⟩
  show ExtIdleState.mk s.idle_threshold none now
      = ExtIdleState.mk s.idle_threshold s.idle_since now
  rw [h]

/-- Witness for C7: an Active tracker `⟨120, none, 3⟩` resumed at time 9. -/
theorem C7_resumed_refreshes_only_last_activity_witness :
    ExtIdleMonitor.handle_event 9 ⟨120, none, 3⟩ WEvent.resumed = ⟨120, none, 9⟩ ∧
    (ExtIdleMonitor.handle_event 9 ⟨120, none, 3⟩ WEvent.resumed).idle_since = none ∧
    (ExtIdleMonitor.handle_event 9 ⟨120, none, 3⟩ WEvent.resumed).idle_threshold
        = (ExtIdleState.mk 120 none 3).idle_threshold :=
  C7_resumed_refreshes_only_last_activity ⟨120, none, 3⟩ 9 rfl

/-- C9: whenever the KDE Wayland tracker is Idle after draining,
`get_dbus_idle` returns exactly the configured threshold, a constant that
does not grow with elapsed idle time, and therefore the strict comparison
in `is_idle` answers false even while the compositor has declared the
session idle. -/
theorem C9_kde_idle_constant (k : KdeIdleState) (kp : List (Rat × String)) (now : Rat)
    (h : (WaylandKdeIdleMonitor.dispatch_pending k kp).idle_active = true) :
    (WaylandKdeIdleMonitor.get_dbus_idle k kp now).1 = (k.idle_threshold : Rat) ∧
    IdleMonitor.is_idle (some (WaylandKdeIdleMonitor.get_dbus_idle k kp now).1)
        k.idle_threshold = Except.ok false := by
  have ht := WaylandKdeIdleMonitor.dispatch_threshold kp k
  have hv : (WaylandKdeIdleMonitor.get_dbus_idle k kp now).1 = (k.idle_threshold : Rat) := by
    simp [WaylandKdeIdleMonitor.get_dbus_idle, h, ht]
  refine ⟨hv, ?_⟩
  rw [hv]
  simp [IdleMonitor.is_idle, IdleMonitor.pyGt]

/-- Witness for C9: an Idle KDE tracker with threshold 120 queried at time
5. -/
theorem C9_kde_idle_constant_witness :
    (WaylandKdeIdleMonitor.get_dbus_idle ⟨120, true, 0⟩ [] 5).1
        = ((120 : Int) : Rat) ∧
    IdleMonitor.is_idle (some (WaylandKdeIdleMonitor.get_dbus_idle ⟨120, true, 0⟩ [] 5).1)
        120 = Except.ok false :=
  C9_kde_idle_constant ⟨120, true, 0⟩ [] 5 rfl

end DbusIdle
